import Mathlib

/-!
Shallow embedding of the record-reconciliation engine of the whatsapp_hook
service: the notes-append logic of the reply processors, the partial-update
builder and row locator over the Google-Sheets store, the audit-log writers,
and the recursive thread queries over the EvolutionAPI Message table.

Conventions used throughout:
* a JavaScript object used as a map is modelled as an association list whose
  observable content is `List.lookup` (first entry wins); `Object.assign`
  therefore lists the assigned entries in front of the target's entries;
* a fallible collaborator call (Google Sheets API, database, LLM) is an
  oracle value of type `Except String α`: `.error` models a thrown
  exception or rejected promise;
* `logger.info` / `logger.warn` / `logger.error` calls are collected as a
  list of `LogEntry`, keeping the literal message string of the call site.
-/

/-- Severity of a line emitted through the service logger. -/
inductive LogLevel
  | info
  | warn
  | error
  deriving DecidableEq, Repr, BEq

/-- One structured log line: severity plus the message string of the call. -/
structure LogEntry where
  level : LogLevel
  msg : String
  deriving DecidableEq, Repr

/-- Observable result of `Object.assign(base, upd)` on objects used as maps:
an association list in which the assigned entries shadow the target's entries
under `List.lookup`. -/
def recAssign {α β : Type} (base upd : List (α × β)) : List (α × β) :=
  upd ++ base

/-- Lookup distributes over append when the key misses the front list. -/
theorem lookup_append_of_none {α β : Type} [BEq α] (l₁ l₂ : List (α × β)) (a : α)
    (h : l₁.lookup a = none) : (l₁ ++ l₂).lookup a = l₂.lookup a := by
  induction l₁ with
  | nil => rfl
  | cons p l ih =>
    obtain ⟨k, v⟩ := p
    by_cases hk : (a == k) = true
    · simp [List.lookup, hk] at h
    · simp [List.lookup, hk] at h ⊢
      exact ih h

/-- Lookup distributes over append when the key hits the front list. -/
theorem lookup_append_of_some {α β : Type} [BEq α] (l₁ l₂ : List (α × β)) (a : α) (b : β)
    (h : l₁.lookup a = some b) : (l₁ ++ l₂).lookup a = some b := by
  induction l₁ with
  | nil => simp [List.lookup] at h
  | cons p l ih =>
    obtain ⟨k, v⟩ := p
    by_cases hk : (a == k) = true
    · simp [List.lookup, hk] at h ⊢
      exact h
    · simp [List.lookup, hk] at h ⊢
      exact ih h

/-! ## Reply reconciliation: the notes cell (claim C1)

`replyMessageProcessor.processReplyMessage` (src/lib/processors/
replyMessageProcessor.ts, Step 6, lines 111-125) appends the formatted reply
to the previous notes cell; `simpleMessageProcessor.processReplyMessage`
(src/graph/simpleMessageProcessor.ts, Step 6, lines 276-287) instead writes
the bare reply text into the notes cell. Both then merge the analysis's
column updates on top with `Object.assign`. -/

/-- Value the reply message processor computes for the notes cell
(replyMessageProcessor.ts lines 116-119): previous cell value, a blank-line
separator when the previous value is truthy (non-empty), then the formatted
reply line `sender: text`. -/
def notesAppendValue (prevNotes senderName messageText : String) : String :=
  prevNotes ++ (if prevNotes = "" then "" else "\n\n") ++ (senderName ++ ": " ++ messageText)

/-- Column-index update map built by Step 6 of
`replyMessageProcessor.processReplyMessage`: the notes column (looked up in
the header-derived `columnIndices`) receives the append-style value computed
from the snapshot row (`rowData`), and `replyAnalysis.columnUpdates` is then
merged on top. -/
def replyProcessorColumnUpdates (columnIndices : List (String × Nat))
    (rowData : List String) (senderName messageText : String)
    (analysisUpdates : List (Nat × String)) : List (Nat × String) :=
  let base : List (Nat × String) :=
    match columnIndices.lookup "notes" with
    | some i => [(i, notesAppendValue (rowData.getD i "") senderName messageText)]
    | none => []
  recAssign base analysisUpdates

/-- Column-index update map built by Step 6 of
`simpleMessageProcessor.processReplyMessage`: the notes column receives the
bare reply text (the snapshot row is not consulted), and
`replyAnalysis.columnUpdates` is then merged on top. -/
def simpleProcessorColumnUpdates (columnIndices : List (String × Nat))
    (messageText : String) (analysisUpdates : List (Nat × String)) : List (Nat × String) :=
  let base : List (Nat × String) :=
    match columnIndices.lookup "notes" with
    | some i => [(i, messageText)]
    | none => []
  recAssign base analysisUpdates

/-! ## Partial updates to a sheet row (claim C2)

`buildUpdateRequests` (src/sheets/operations.ts lines 383-412, WorkOrders
variant) turns a `Partial<OrderData>` into one single-cell `updateCells`
request per present, defined field that appears in `COLUMN_MAP`. -/

/-- Field keys of `OrderData` (operations.ts lines 35-52). A
`Partial<OrderData>` is modelled as an association list over these keys whose
values are `Option String`: a present key with `none` models an explicitly
`undefined` proposal. -/
inductive OrderField
  | work_id
  | customer_name
  | address
  | phone
  | job_description
  | total_price
  | deposit
  | job_status
  | start_date_time
  | end_date_time
  | sort_of_payment
  | notes
  | created_at
  | created_by
  | updated_at
  | updated_by
  deriving DecidableEq, Repr

/-- COLUMN_MAP of operations.ts (lines 57-73, WorkOrders variant): field to
sheet column letter; `created_at` has no entry. -/
def COLUMN_MAP : OrderField → Option Char
  | .work_id => some 'A'
  | .customer_name => some 'B'
  | .address => some 'C'
  | .phone => some 'D'
  | .job_description => some 'E'
  | .total_price => some 'F'
  | .deposit => some 'G'
  | .job_status => some 'H'
  | .start_date_time => some 'I'
  | .end_date_time => some 'J'
  | .sort_of_payment => some 'K'
  | .notes => some 'L'
  | .created_at => none
  | .created_by => some 'O'
  | .updated_at => some 'N'
  | .updated_by => some 'P'

/-- One `updateCells` request of the Sheets batch update: a one-cell rectangle
(row and column ranges are half-open, 0-based) and the written string value. -/
structure UpdateCellsRequest where
  startRowIndex : Nat
  endRowIndex : Nat
  startColumnIndex : Nat
  endColumnIndex : Nat
  stringValue : String
  deriving DecidableEq, Repr

/-- Embeds `buildUpdateRequests` (operations.ts lines 383-412): for each entry
of the partial update, in order, emit a request exactly when the value is
defined and the field has a COLUMN_MAP entry; the column letter is converted
to a 0-based index via its character code. -/
def buildUpdateRequests (rowNumber : Nat) (updates : List (OrderField × Option String)) :
    List UpdateCellsRequest :=
  updates.filterMap fun fv =>
    match fv.2, COLUMN_MAP fv.1 with
    | some v, some c => some ⟨rowNumber - 1, rowNumber, c.toNat - 65, c.toNat - 64, v⟩
    | _, _ => none

/-- Applies a batch of single-cell requests to the snapshot row, modelled as a
function from 0-based column index to cell contents (all requests of one
batch target the same written row, so only the column index matters). -/
def applyUpdateRequests (row : Nat → String) (reqs : List UpdateCellsRequest) : Nat → String :=
  reqs.foldl (fun r q => fun c => if c = q.startColumnIndex then q.stringValue else r c) row

/-! ## Record locator (claims C3, C7)

`findSheetRowByWorkId` (operations.ts lines 126-157, WorkOrders variant):
read the full data range, scan data rows top-to-bottom comparing column A
against the work id, return the 1-based row number of the first match. The
whole body sits in a try block whose catch logs the error and returns null. -/

/-- Loop condition of the scan: `row && row.length > 0 && row[0] === workId`. -/
def rowMatches (row : List String) (workId : String) : Bool :=
  decide (0 < row.length) && decide (row.headD "" = workId)

/-- Scan loop of `findSheetRowByWorkId` (lines 138-145): `i` is the 0-based
index of the first row of the remaining list; on a match the 1-based row
number `i + 1` is returned at once, so the first match wins. -/
def findFromRow : List (List String) → String → Nat → Option Nat
  | [], _, _ => none
  | row :: rest, workId, i =>
    if rowMatches row workId then some (i + 1) else findFromRow rest workId (i + 1)

/-- Embeds `findSheetRowByWorkId` (lines 126-157). `dataResult` is the oracle
outcome of `getSheetData`; an `.error` models a thrown read failure, which the
catch block turns into a logged `null` return. On success the scan starts at
index HEADER_ROW_INDEX = 1, skipping the header row. -/
def findSheetRowByWorkId (dataResult : Except String (List (List String)))
    (workId : String) : Option Nat × List LogEntry :=
  match dataResult with
  | .error _ =>
      (none, [⟨.info, "Searching for work order"⟩, ⟨.error, "Failed to find work order"⟩])
  | .ok data =>
      if data.length = 0 then
        (none, [⟨.info, "Searching for work order"⟩, ⟨.warn, "No data found in WorkOrders sheet"⟩])
      else
        match findFromRow (data.drop 1) workId 1 with
        | some n => (some n, [⟨.info, "Searching for work order"⟩, ⟨.info, "Found work order"⟩])
        | none => (none, [⟨.info, "Searching for work order"⟩, ⟨.warn, "Work order not found"⟩])

/-! ## Audit log writers (claim C4)

`appendUpdateLog` (operations.ts lines 208-236) wraps the audit append in a
try block whose catch only logs; `createNewOrder` (lines 91-119) performs the
data append and the audit append inside one try block whose catch rethrows a
wrapped error. -/

/-- ChangeAnalysis of operations.ts (lines 78-83); `newValues` is optional. -/
structure ChangeAnalysis where
  workId : String
  changesDetected : Bool
  changedFields : List String
  newValues : Option (List (String × String))
  deriving DecidableEq, Repr

/-- One appended audit row (the six columns of `logAuditEntry`, lines
362-378); the details column keeps the object that gets JSON-stringified. -/
structure AuditEntry where
  workId : String
  operation : String
  description : String
  timestamp : String
  user : String
  details : List (String × String)
  deriving DecidableEq, Repr

/-- Embeds `appendUpdateLog` (lines 208-236): builds the UPDATE audit entry
(description from `changedFields`, user 'system', details from
`newValues || {}`) and hands it to the audit-sheet collaborator `append`;
a failure of the append is caught and logged, never rethrown, so the first
component is `.ok ()` on every path. -/
def appendUpdateLog (append : AuditEntry → Except String Unit) (workId : String)
    (changes : ChangeAnalysis) (timestamp : String) : Except String Unit × List LogEntry :=
  let description :=
    if 0 < changes.changedFields.length then
      "Fields changed: " ++ String.intercalate ", " changes.changedFields
    else "No changes detected"
  let entry : AuditEntry :=
    ⟨workId, "UPDATE", description, timestamp, "system", changes.newValues.getD []⟩
  match append entry with
  | .ok _ => (.ok (), [⟨.info, "Logged update to audit trail"⟩])
  | .error _ => (.ok (), [⟨.error, "Failed to log update to audit trail"⟩])

/-- Embeds `createNewOrder` (lines 91-119): the data append and the audit
append (`logAuditEntry`) both sit inside the try block; the catch logs and
rethrows `Failed to create work order: ...`, so a failure of either append
surfaces as an error to the caller. `now` models the `Date.now()` return
value used as the result. -/
def createNewOrder (dataAppend : Except String Unit) (auditAppend : Except String Unit)
    (now : Nat) : Except String Nat × List LogEntry :=
  match dataAppend with
  | .error e =>
      (.error ("Failed to create work order: " ++ e),
        [⟨.info, "Creating new work order"⟩, ⟨.error, "Failed to create new work order"⟩])
  | .ok _ =>
      match auditAppend with
      | .error e =>
          (.error ("Failed to create work order: " ++ e),
            [⟨.info, "Creating new work order"⟩, ⟨.error, "Failed to create new work order"⟩])
      | .ok _ =>
          (.ok now,
            [⟨.info, "Creating new work order"⟩, ⟨.info, "Successfully created new work order"⟩])

/-! ## Thread queries over the EvolutionAPI Message table (claims C5, C6)

`getThreadHistory` and `getThreadHistoryForReply` (src/db/queries/
threadQueries.ts, SQL variant, lines 42-204) run recursive CTEs over the
Message table. A recursive CTE with UNION ALL is embedded by its iterative
semantics: round 0 is the anchor member's rows, round n+1 applies the
recursive member to round n's rows, and the query's row set is the union of
all rounds — the iteration stops only when a round is empty. -/

/-- Row of the Message table restricted to the columns the thread queries
read: key->>'id', contextInfo->>'stanzaId', message->'conversation',
pushName, key->>'remoteJid'. -/
structure Msg where
  id : String
  stanzaId : Option String
  conversation : Option String
  pushName : String
  remoteJid : String
  deriving DecidableEq, Repr

/-- Row shape of the ReplyChain CTE of `getThreadHistoryForReply`
(threadQueries.ts lines 150-169). -/
structure ChainRow where
  message_id : String
  parent_id : Option String
  depth : Nat
  deriving DecidableEq, Repr

/-- Recursive member of the ReplyChain CTE (lines 162-168): join Message m
with the previous round rc on m.id = rc.parent_id, keeping only messages m
whose own stanzaId is non-null — note that this keeps the root (which has a
null stanzaId) out of the chain. -/
def replyChainStep (db : List Msg) (w : List ChainRow) : List ChainRow :=
  w.flatMap fun rc =>
    (db.filter fun m => some m.id == rc.parent_id && m.stanzaId.isSome).map
      fun m => ⟨m.id, m.stanzaId, rc.depth + 1⟩

/-- Working table of the ReplyChain CTE after n rounds; round 0 is the anchor
member (lines 152-157): the reply row itself. -/
def replyChainWorking (db : List Msg) (startId : String) : Nat → List ChainRow
  | 0 => (db.filter fun m => m.id == startId).map fun m => ⟨m.id, m.stanzaId, 0⟩
  | n + 1 => replyChainStep db (replyChainWorking db startId n)

/-- Row set of the ReplyChain CTE taken over db.length + 1 rounds. Whenever
the iteration empties within that many rounds — in particular on acyclic
parent chains, whose length is bounded by the number of messages — this is
the CTE's full row set; on inputs where no round empties the SQL query never
terminates at all. -/
def replyChainRows (db : List Msg) (startId : String) : List ChainRow :=
  (List.range (db.length + 1)).flatMap (replyChainWorking db startId)

/-- Row kept by `ORDER BY depth DESC LIMIT 1` (lines 172-173): the row with
maximal depth among the given ones. -/
def maxByDepth : List ChainRow → Option ChainRow
  | [] => none
  | r :: rs =>
    match maxByDepth rs with
    | none => some r
    | some r' => some (if r.depth < r'.depth then r' else r)

/-- Final SELECT of findBaseQuery (lines 170-173): among ReplyChain rows with
a null parent_id, take the deepest one's message id. -/
def findBaseMessageId (db : List Msg) (startId : String) : Option String :=
  (maxByDepth ((replyChainRows db startId).filter fun r => r.parent_id.isNone)).map
    (fun r => r.message_id)

/-- Output row of the MessageThread CTE of `getThreadHistory` (threadQueries.ts
lines 55-108), also the shape of the ThreadMessage records the service passes
around. -/
structure ThreadMessage where
  thread_base_id : String
  thread_depth : Nat
  current_message_id : String
  sender_name : String
  message_text : Option String
  full_thread_history : String
  deriving DecidableEq, Repr

/-- Anchor member of the MessageThread CTE (lines 56-72): messages of the
target group that are not replies (null stanzaId) and have a non-null
conversation text, at depth 0, with history `sender : text`. -/
def threadAnchor (db : List Msg) (gid : String) : List ThreadMessage :=
  (db.filter fun m => m.stanzaId.isNone && m.conversation.isSome && m.remoteJid == gid).map
    fun m => ⟨m.id, 0, m.id, m.pushName, m.conversation,
      m.pushName ++ " : " ++ m.conversation.getD ""⟩

/-- Recursive member of the MessageThread CTE (lines 77-92): replies of the
target group joined on stanzaId = previous round's current_message_id; the
accumulated history gains ' | sender : text' (a null conversation contributes
the empty string, as CONCAT ignores NULL). -/
def threadStep (db : List Msg) (gid : String) (w : List ThreadMessage) : List ThreadMessage :=
  w.flatMap fun mt =>
    (db.filter fun m => m.stanzaId == some mt.current_message_id && m.remoteJid == gid).map
      fun m => ⟨mt.thread_base_id, mt.thread_depth + 1, m.id, m.pushName, m.conversation,
        mt.full_thread_history ++ " | " ++ m.pushName ++ " : " ++ m.conversation.getD ""⟩

/-- Working table of the MessageThread CTE after n rounds. -/
def threadWorking (db : List Msg) (gid : String) : Nat → List ThreadMessage
  | 0 => threadAnchor db gid
  | n + 1 => threadStep db gid (threadWorking db gid n)

/-- Row set of the MessageThread CTE over db.length + 1 rounds (every round
beyond the longest root-reachable chain is empty, and chains reachable from a
root are acyclic because each message has at most one parent). -/
def threadRowsAll (db : List Msg) (gid : String) : List ThreadMessage :=
  (List.range (db.length + 1)).flatMap (threadWorking db gid)

/-- Lexicographic strict order on character lists, comparing code points. -/
def ltChars : List Char → List Char → Bool
  | [], [] => false
  | [], _ :: _ => true
  | _ :: _, [] => false
  | c :: cs, d :: ds =>
    decide (c.toNat < d.toNat) || (c.toNat == d.toNat && ltChars cs ds)

/-- Lexicographic strict order on strings (the text collation of ORDER BY). -/
def strLt (a b : String) : Bool :=
  ltChars a.data b.data

/-- Key order of `ORDER BY thread_base_id, thread_depth` (lines 106-108). -/
def threadLE (a b : ThreadMessage) : Bool :=
  strLt a.thread_base_id b.thread_base_id
  || (a.thread_base_id == b.thread_base_id && decide (a.thread_depth ≤ b.thread_depth))

/-- Insertion step of the ORDER BY sort. -/
def insertSorted (r : ThreadMessage) : List ThreadMessage → List ThreadMessage
  | [] => [r]
  | x :: xs => if threadLE r x then r :: x :: xs else x :: insertSorted r xs

/-- Sorts the selected rows by (thread_base_id, thread_depth). -/
def sortThread (l : List ThreadMessage) : List ThreadMessage :=
  l.foldr insertSorted []

/-- Embeds `getThreadHistory` (threadQueries.ts lines 42-128, SQL variant):
all MessageThread rows whose current_message_id or thread_base_id equals the
queried message id, ordered by base id and depth. -/
def getThreadHistory (db : List Msg) (messageId gid : String) : List ThreadMessage :=
  sortThread ((threadRowsAll db gid).filter
    fun r => r.current_message_id == messageId || r.thread_base_id == messageId)

/-- Embeds `getThreadHistoryForReply` (threadQueries.ts lines 137-204, SQL
variant): find the base message of the reply via findBaseQuery, then return
the complete thread of that base; when no base row is found the function
logs a warning and returns the empty history. -/
def getThreadHistoryForReply (db : List Msg) (replyMessageId gid : String) :
    List ThreadMessage :=
  match findBaseMessageId db replyMessageId with
  | none => []
  | some baseId => getThreadHistory db baseId gid

/-- Two messages whose parent pointers form a 2-cycle, both in group g. -/
def cycleDb : List Msg :=
  [⟨"R", some "P", some "reply text", "S1", "g"⟩,
   ⟨"P", some "R", some "parent text", "S2", "g"⟩]

/-- Acyclic 3-chain A <- B <- C in group g: A is a root with text, B replies
to A, C replies to B. -/
def chainDb : List Msg :=
  [⟨"A", none, some "job WO-1 at Main St", "S1", "g"⟩,
   ⟨"B", some "A", some "price 500", "S2", "g"⟩,
   ⟨"C", some "B", some "job done", "S3", "g"⟩]

/-! ## Reply reconciliation change set (claim C8)

`convertReplyAnalysisToUpdates` (operations.ts lines 286-303) seeds the
partial update with the synthetic last-modified pair and then merges the
analysis's `newValues` on top with `Object.assign`. -/

/-- Embeds `convertReplyAnalysisToUpdates` (lines 286-303): the update object
starts as updated_at = timestamp, updated_by = senderName; when the analysis
carries `newValues` they are assigned on top and shadow existing keys. -/
def convertReplyAnalysisToUpdates (newValues : Option (List (String × String)))
    (senderName timestamp : String) : List (String × String) :=
  let updates : List (String × String) :=
    [("updated_at", timestamp), ("updated_by", senderName)]
  match newValues with
  | some nv => recAssign updates nv
  | none => updates

/-! ## Quoted-message fallback thread (claim C9)

The fallback variant of `getThreadHistoryForReply` (threadQueries.ts lines
274-327) reconstructs a one-entry thread from the quoted-message payload
embedded in the reply. -/

/-- Alternative shapes of the quoted-message payload the fallback reads:
plain conversation text, extended text, or an image caption. -/
structure QuotedMessage where
  conversation : Option String
  extendedText : Option String
  imageCaption : Option String
  deriving DecidableEq, Repr

/-- JavaScript truthiness of an optional string: present and non-empty. -/
def truthyStr : Option String → Bool
  | none => false
  | some s => !(s == "")

/-- Strips leading and trailing whitespace, modelling `String.prototype.trim`
over the string's character list. -/
def trimStr (s : String) : String :=
  ⟨((s.data.dropWhile Char.isWhitespace).reverse.dropWhile Char.isWhitespace).reverse⟩

/-- Text extraction of lines 287-294: first truthy among conversation,
extendedTextMessage.text, imageMessage.caption, else the empty string. -/
def extractQuotedText (q : QuotedMessage) : String :=
  if truthyStr q.conversation then q.conversation.getD ""
  else if truthyStr q.extendedText then q.extendedText.getD ""
  else if truthyStr q.imageCaption then q.imageCaption.getD ""
  else ""

/-- Embeds the quoted-message fallback variant of `getThreadHistoryForReply`
(lines 274-327): no quoted payload, or extracted text that is empty after
trimming, yields the empty history; otherwise a single ThreadMessage at
depth 0 with sender name 'Previous Message' and the trimmed text as both
message text and full history. -/
def getThreadHistoryFromQuoted (replyMessageId : String)
    (quotedMessage : Option QuotedMessage) : List ThreadMessage :=
  match quotedMessage with
  | none => []
  | some q =>
    let quotedText := extractQuotedText q
    if quotedText == "" || (trimStr quotedText).length == 0 then []
    else [⟨replyMessageId, 0, replyMessageId, "Previous Message",
           some (trimStr quotedText), trimStr quotedText⟩]

/-! ## Top-level message processor (claim C10)

`processWhatsAppMessage` (src/graph/simpleMessageProcessor.ts lines 25-82)
runs its whole body inside try/catch; the catch turns any thrown error into
a ProcessingResult with success = false and messageType 'ignored'. -/

/-- Message type tag of a ProcessingResult. -/
inductive MessageType
  | first
  | reply
  | ignored
  deriving DecidableEq, Repr

/-- Result shape of `processWhatsAppMessage`; the analysis payload is kept
opaque as a string handle. -/
structure ProcessingResult where
  success : Bool
  messageType : MessageType
  analysis : Option String
  error : Option String
  deriving DecidableEq, Repr

/-- Loosely typed webhook payload: each level may be absent, as in a
malformed JSON body. -/
structure RawKey where
  id : Option String
  remoteJid : Option String
  deriving DecidableEq, Repr

/-- Data level of the raw payload. -/
structure RawData where
  key : Option RawKey
  deriving DecidableEq, Repr

/-- Top level of the raw payload. -/
structure RawPayload where
  data : Option RawData
  deriving DecidableEq, Repr

/-- JavaScript member access `payload.data.key.id`: reading a property of a
nullish value throws a TypeError, while a present object whose property is
absent yields undefined without throwing. -/
def payloadMessageId (p : Option RawPayload) : Except String (Option String) :=
  match p with
  | none => .error "TypeError: Cannot read properties of undefined"
  | some pl =>
    match pl.data with
    | none => .error "TypeError: Cannot read properties of undefined"
    | some d =>
      match d.key with
      | none => .error "TypeError: Cannot read properties of undefined"
      | some k => .ok k.id

/-- JavaScript member access `payload.data.key.remoteJid`. -/
def payloadRemoteJid (p : Option RawPayload) : Except String (Option String) :=
  match p with
  | none => .error "TypeError: Cannot read properties of undefined"
  | some pl =>
    match pl.data with
    | none => .error "TypeError: Cannot read properties of undefined"
    | some d =>
      match d.key with
      | none => .error "TypeError: Cannot read properties of undefined"
      | some k => .ok k.remoteJid

/-- Oracle outcomes of the collaborators `processWhatsAppMessage` invokes,
one per call site in source order: validateTargetGroup, validateMessageText,
validateSenderName, logMessage, isReplyMessage, and the two delegated
processors; an `.error` models a throw at that call. -/
structure ProcEnv where
  validTargetGroup : Option String → Bool
  messageText : Except String String
  senderName : Except String String
  logMessageResult : Except String Unit
  isReply : Bool
  replyResult : Except String ProcessingResult
  firstResult : Except String ProcessingResult

/-- Try-block body of `processWhatsAppMessage` (lines 31-67), propagating any
thrown error: extract the message id and remoteJid, drop messages outside the
target group, validate text and sender, log the message, then delegate to the
reply or first-message processor. -/
def processBody (env : ProcEnv) (p : Option RawPayload) : Except String ProcessingResult := do
  let _messageId ← payloadMessageId p
  let remoteJid ← payloadRemoteJid p
  if !env.validTargetGroup remoteJid then
    return ⟨true, .ignored, none, some "Message not from target group"⟩
  let _messageText ← env.messageText
  let _senderName ← env.senderName
  let _ ← env.logMessageResult
  if env.isReply then env.replyResult else env.firstResult

/-- Embeds `processWhatsAppMessage` (lines 25-82): the whole body runs inside
try/catch, so the function always returns a ProcessingResult; a thrown error
is surfaced as success = false, messageType 'ignored', carrying the error
message. -/
def processWhatsAppMessage (env : ProcEnv) (p : Option RawPayload) : ProcessingResult :=
  match processBody env p with
  | .ok r => r
  | .error e => ⟨false, .ignored, none, some e⟩

/-- Sample collaborator environment in which every oracle succeeds. -/
def sampleEnv : ProcEnv :=
  ⟨fun _ => true, .ok "the reply text", .ok "Jane", .ok (), true,
   .ok ⟨true, .reply, some "reply analysis", none⟩,
   .ok ⟨true, .first, some "first analysis", none⟩⟩

/-! ## Theorems -/

/-- Strings have length zero exactly when empty. -/
theorem string_length_eq_zero_iff (s : String) : s.length = 0 ↔ s = "" := by
  constructor
  · intro h
    exact String.ext (List.length_eq_zero.mp h)
  · intro h
    subst h
    rfl

/-- An append-style notes value is never the empty string: it always contains
the ': ' of the formatted reply line. -/
theorem notesAppendValue_ne_empty (prev s t : String) : notesAppendValue prev s t ≠ "" := by
  intro h
  have hlen : (notesAppendValue prev s t).length = 0 := (string_length_eq_zero_iff _).mpr h
  unfold notesAppendValue at hlen
  simp only [String.length_append] at hlen
  have h2 : (": " : String).length = 2 := rfl
  omega

/-- On a non-empty previous value the append uses the blank-line separator. -/
theorem notesAppendValue_of_ne_empty (x s t : String) (h : x ≠ "") :
    notesAppendValue x s t = x ++ "\n\n" ++ (s ++ ": " ++ t) := by
  unfold notesAppendValue
  rw [if_neg h]

/-- C1 counterexample: the claim fails at a concrete reply reconciliation of
`simpleMessageProcessor.processReplyMessage` — with previous notes cell
'old note', sender 'Bob' and reply 'new reply', the value written to the
notes cell is the bare reply text: it is not the previous value concatenated
with a separator and the reply (the previous value is not even a prefix of
it), i.e. a destructive overwrite. -/
theorem C1_counterexample :
    (simpleProcessorColumnUpdates [("notes", 2)] "new reply" []).lookup 2 = some "new reply"
    ∧ "new reply" ≠ notesAppendValue "old note" "Bob" "new reply"
    ∧ List.isPrefixOf "old note".data "new reply".data = false := by decide

/-- C1 (amended): in `replyMessageProcessor.processReplyMessage`, whenever the
snapshot has a notes column and the analysis updates do not target it, the
value written to the notes cell is the previous cell value concatenated with
a separator and the formatted reply line, and re-appending the same reply to
the resulting value concatenates a second copy after a blank-line separator
(not idempotent); `simpleMessageProcessor.processReplyMessage` instead
overwrites the notes cell with the bare reply text. -/
theorem C1_reply_notes_append (columnIndices : List (String × Nat))
    (rowData : List String) (senderName messageText : String)
    (analysisUpdates : List (Nat × String)) (i : Nat)
    (hidx : columnIndices.lookup "notes" = some i)
    (hfree : analysisUpdates.lookup i = none) :
    (replyProcessorColumnUpdates columnIndices rowData senderName messageText
        analysisUpdates).lookup i
      = some (notesAppendValue (rowData.getD i "") senderName messageText)
    ∧ ∀ prev s t : String,
        notesAppendValue (notesAppendValue prev s t) s t
          = notesAppendValue prev s t ++ "\n\n" ++ (s ++ ": " ++ t) := by
  constructor
  · simp only [replyProcessorColumnUpdates, hidx, recAssign]
    rw [lookup_append_of_none _ _ _ hfree]
    simp [List.lookup]
  · intro prev s t
    exact notesAppendValue_of_ne_empty _ s t (notesAppendValue_ne_empty prev s t)

/-- C1 witness: concrete append — previous notes 'old note', sender 'Bob',
reply 'fixed' — writes the concatenation with the blank-line separator. -/
theorem C1_witness :
    (replyProcessorColumnUpdates [("notes", 2)] ["c0", "c1", "old note"] "Bob" "fixed"
      []).lookup 2 = some "old note\n\nBob: fixed" :=
  ((C1_reply_notes_append [("notes", 2)] ["c0", "c1", "old note"] "Bob" "fixed" [] 2
    (by decide) rfl).1).trans (by decide)

/-- Every emitted request comes from a present, defined field of the partial
update that has a COLUMN_MAP entry, and carries that field's column index. -/
theorem buildUpdateRequests_mem (rowNumber : Nat)
    (updates : List (OrderField × Option String)) (q : UpdateCellsRequest)
    (hq : q ∈ buildUpdateRequests rowNumber updates) :
    ∃ f v ch, (f, some v) ∈ updates ∧ COLUMN_MAP f = some ch
      ∧ q.startColumnIndex = ch.toNat - 65 ∧ q.stringValue = v := by
  unfold buildUpdateRequests at hq
  rw [List.mem_filterMap] at hq
  obtain ⟨⟨f, ov⟩, hmem, hfv⟩ := hq
  cases ov with
  | none => simp at hfv
  | some v =>
    cases hc : COLUMN_MAP f with
    | none =>
      rw [hc] at hfv
      simp at hfv
    | some c =>
      rw [hc] at hfv
      simp only [Option.some.injEq] at hfv
      subst hfv
      exact ⟨f, v, c, hmem, hc, rfl, rfl⟩

/-- A batch whose requests all miss column c leaves the row unchanged at c. -/
theorem applyUpdateRequests_untouched (row : Nat → String)
    (reqs : List UpdateCellsRequest) (c : Nat)
    (h : ∀ q ∈ reqs, q.startColumnIndex ≠ c) :
    applyUpdateRequests row reqs c = row c := by
  induction reqs generalizing row with
  | nil => rfl
  | cons q rest ih =>
    have hq : q.startColumnIndex ≠ c := h q (List.mem_cons_self q rest)
    have hrest : ∀ q' ∈ rest, q'.startColumnIndex ≠ c :=
      fun q' hq' => h q' (List.mem_cons_of_mem _ hq')
    unfold applyUpdateRequests at ih ⊢
    rw [List.foldl_cons, ih _ hrest]
    exact if_neg (fun hcq => hq hcq.symm)

/-- C2: `buildUpdateRequests` emits a request only for proposed fields with a
defined value (each carrying that field's mapped column), so applying the
batch leaves the written row equal to the snapshot row at every column whose
index no proposed, defined field maps to. -/
theorem C2_untouched_columns (rowNumber : Nat)
    (updates : List (OrderField × Option String)) (row : Nat → String) (c : Nat)
    (h : ∀ f v, (f, some v) ∈ updates → ∀ ch, COLUMN_MAP f = some ch → ch.toNat - 65 ≠ c) :
    (∀ q ∈ buildUpdateRequests rowNumber updates, ∃ f v ch,
        (f, some v) ∈ updates ∧ COLUMN_MAP f = some ch
          ∧ q.startColumnIndex = ch.toNat - 65 ∧ q.stringValue = v)
    ∧ applyUpdateRequests row (buildUpdateRequests rowNumber updates) c = row c := by
  refine ⟨fun q hq => buildUpdateRequests_mem rowNumber updates q hq, ?_⟩
  apply applyUpdateRequests_untouched
  intro q hq
  obtain ⟨f, v, ch, hmem, hc, hstart, -⟩ := buildUpdateRequests_mem rowNumber updates q hq
  rw [hstart]
  exact h f v hmem ch hc

/-- C2 witness: an update proposing only job_status (column H, index 7) leaves
the work_id column (index 0) of the written row at its snapshot value. -/
theorem C2_witness :
    applyUpdateRequests (fun _ => "snapshot")
      (buildUpdateRequests 7 [(OrderField.job_status, some "done")]) 0 = "snapshot" := by
  refine (C2_untouched_columns 7 [(OrderField.job_status, some "done")]
    (fun _ => "snapshot") 0 ?_).2
  intro f v hmem ch hc
  simp only [List.mem_singleton, Prod.mk.injEq] at hmem
  obtain ⟨rfl, -⟩ := hmem
  simp only [COLUMN_MAP, Option.some.injEq] at hc
  subst hc
  decide

/-- The scan returns the position of the first matching row: if index k
matches and every earlier index does not, the result is i + k + 1. -/
theorem findFromRow_first (l : List (List String)) (w : String) (i k : Nat)
    (hk : k < l.length) (hmatch : rowMatches (l.getD k []) w = true)
    (hmin : ∀ m, m < k → rowMatches (l.getD m []) w = false) :
    findFromRow l w i = some (i + k + 1) := by
  induction l generalizing i k with
  | nil => simp at hk
  | cons r rest ih =>
    cases k with
    | zero =>
      simp only [List.getD_cons_zero] at hmatch
      simp [findFromRow, hmatch]
    | succ k' =>
      have hr : rowMatches r w = false := by
        have := hmin 0 (Nat.succ_pos k')
        simpa using this
      simp only [findFromRow, hr, Bool.false_eq_true, if_false]
      have hk' : k' < rest.length := by
        simpa using hk
      have hmatch' : rowMatches (rest.getD k' []) w = true := by
        simpa using hmatch
      have hmin' : ∀ m, m < k' → rowMatches (rest.getD m []) w = false := by
        intro m hm
        have := hmin (m + 1) (Nat.succ_lt_succ hm)
        simpa using this
      rw [ih (i + 1) k' hk' hmatch' hmin']
      simp only [Option.some.injEq]
      omega

/-- The scan finds nothing when no row matches. -/
theorem findFromRow_none (l : List (List String)) (w : String) (i : Nat)
    (h : ∀ r ∈ l, rowMatches r w = false) : findFromRow l w i = none := by
  induction l generalizing i with
  | nil => rfl
  | cons r rest ih =>
    simp only [findFromRow, h r (List.mem_cons_self r rest), Bool.false_eq_true, if_false]
    exact ih _ fun r' hr' => h r' (List.mem_cons_of_mem _ hr')

/-- C3 counterexample: on a store whose two data rows both carry work id W1,
the locator returns the first (row number 2) but its entire log output is the
two info lines of the search — no warning of any kind is emitted, in
particular none flagging the second occurrence further down. -/
theorem C3_counterexample :
    findSheetRowByWorkId (.ok [["Work ID"], ["W1", "a"], ["W1", "b"]]) "W1"
      = (some 2, [⟨.info, "Searching for work order"⟩, ⟨.info, "Found work order"⟩])
    ∧ ((findSheetRowByWorkId (.ok [["Work ID"], ["W1", "a"], ["W1", "b"]]) "W1").snd.all
        fun e => e.level != LogLevel.warn) = true := by decide

/-- C3 (amended): on a store containing two data rows with the same work id
(0-based data-row indices i < j), the locator returns row number k + 2 where
k ≤ i is the first matching data-row index — never the later match — and its
log output contains no warning at all (the duplicate is silently ignored). -/
theorem C3_first_match (data : List (List String)) (w : String) (i j : Nat)
    (hij : i < j) (hj : j < (data.drop 1).length)
    (hi : rowMatches ((data.drop 1).getD i []) w = true)
    (_hjm : rowMatches ((data.drop 1).getD j []) w = true) :
    ∃ k, k ≤ i
      ∧ (findSheetRowByWorkId (.ok data) w).fst = some (k + 2)
      ∧ rowMatches ((data.drop 1).getD k []) w = true
      ∧ (∀ m, m < k → rowMatches ((data.drop 1).getD m []) w = false)
      ∧ ((findSheetRowByWorkId (.ok data) w).snd.all
          fun e => e.level != LogLevel.warn) = true := by
  have hex : ∃ k, rowMatches ((data.drop 1).getD k []) w = true := ⟨i, hi⟩
  have hk0 : rowMatches ((data.drop 1).getD (Nat.find hex) []) w = true := Nat.find_spec hex
  have hk0i : Nat.find hex ≤ i := Nat.find_min' hex hi
  have hk0min : ∀ m, m < Nat.find hex → rowMatches ((data.drop 1).getD m []) w = false := by
    intro m hm
    have := Nat.find_min hex hm
    exact Bool.not_eq_true _ ▸ Bool.of_not_eq_true this
  have hk0len : Nat.find hex < (data.drop 1).length :=
    lt_of_le_of_lt (le_trans hk0i (Nat.le_of_lt hij)) hj
  have hlen0 : ¬ data.length = 0 := by
    simp only [List.length_drop] at hj
    omega
  have hfind := findFromRow_first (data.drop 1) w 1 (Nat.find hex) hk0len hk0 hk0min
  have hres : findSheetRowByWorkId (.ok data) w
      = (some (1 + Nat.find hex + 1),
         [⟨.info, "Searching for work order"⟩, ⟨.info, "Found work order"⟩]) := by
    simp only [findSheetRowByWorkId]
    rw [if_neg hlen0, hfind]
  refine ⟨Nat.find hex, hk0i, ?_, hk0, hk0min, ?_⟩
  · rw [hres]
    simp only [Option.some.injEq]
    omega
  · rw [hres]
    rfl

/-- C3 witness: concrete duplicate store — both data rows carry W1; the
locator returns row number 2, the first occurrence. -/
theorem C3_witness :
    (findSheetRowByWorkId (.ok [["Work ID"], ["W1", "a"], ["W1", "b"]]) "W1").fst
      = some 2 := by
  obtain ⟨k, hk, hfst, -, -, -⟩ := C3_first_match [["Work ID"], ["W1", "a"], ["W1", "b"]]
    "W1" 0 1 (by decide) (by decide) (by decide) (by decide)
  have hk0 : k = 0 := Nat.le_zero.mp hk
  subst hk0
  exact hfst

/-- C7 counterexample: a failed store read makes the locator return none —
the very same first component as a successful read of a store that simply
does not contain the work id; no failure is propagated. -/
theorem C7_counterexample :
    (findSheetRowByWorkId (.error "network timeout") "W1").fst = none
    ∧ (findSheetRowByWorkId (.ok [["Work ID"], ["W2", "x"]]) "W1").fst = none := by decide

/-- C7 (amended): a store read error is caught inside the locator: it returns
null having logged an error line, and this return value is identical to the
one produced by a successful read that finds no matching row — the caller
cannot distinguish a read failure from identifier-not-found by the result. -/
theorem C7_read_error_swallowed (e w : String) (data : List (List String))
    (hne : ¬ data.length = 0)
    (hnomatch : ∀ r ∈ data.drop 1, rowMatches r w = false) :
    (findSheetRowByWorkId (.error e) w).fst = none
    ∧ (findSheetRowByWorkId (.error e) w).snd
        = [⟨.info, "Searching for work order"⟩, ⟨.error, "Failed to find work order"⟩]
    ∧ (findSheetRowByWorkId (.ok data) w).fst = (findSheetRowByWorkId (.error e) w).fst := by
  refine ⟨rfl, rfl, ?_⟩
  simp only [findSheetRowByWorkId]
  rw [if_neg hne, findFromRow_none _ _ _ hnomatch]

/-- C7 witness: with the store read failing with 'network timeout' and a
store lacking W1, both calls return the same first component. -/
theorem C7_witness :
    (findSheetRowByWorkId (.ok [["Work ID"], ["W2", "x"]]) "W1").fst
      = (findSheetRowByWorkId (.error "network timeout") "W1").fst :=
  (C7_read_error_swallowed "network timeout" "W1" [["Work ID"], ["W2", "x"]]
    (by decide) (by decide)).2.2

/-- C4 counterexample: on the CREATE path with a successful data append, a
failing audit append makes createNewOrder itself return the wrapped error —
the audit-write failure is propagated to the caller, not swallowed, even
though the data write succeeded (as the second conjunct shows, the very same
inputs with a healthy audit sheet yield success). -/
theorem C4_counterexample :
    (createNewOrder (.ok ()) (.error "audit sheet down") 99).fst
      = .error "Failed to create work order: audit sheet down"
    ∧ (createNewOrder (.ok ()) (.ok ()) 99).fst = .ok 99 := ⟨rfl, rfl⟩

/-- C4 (amended): on the UPDATE path, appendUpdateLog catches any audit-append
failure and returns normally for every outcome of the audit collaborator; on
the CREATE path, however, the audit append sits inside createNewOrder's try
block, whose catch rethrows, so an audit failure after a successful data
append surfaces as a creation error to the caller. -/
theorem C4_audit_isolation (append : AuditEntry → Except String Unit) (workId : String)
    (changes : ChangeAnalysis) (timestamp e : String) (now : Nat) :
    (appendUpdateLog append workId changes timestamp).fst = .ok ()
    ∧ (createNewOrder (.ok ()) (.error e) now).fst
        = .error ("Failed to create work order: " ++ e) := by
  constructor
  · simp only [appendUpdateLog]
    split <;> rfl
  · rfl

/-- Round formula for the cyclic store: every round of the ReplyChain CTE
contains exactly one row, alternating between R and P, with depth equal to
the round number. -/
theorem replyChainWorking_cycle (n : Nat) :
    replyChainWorking cycleDb "R" n
      = [⟨if n % 2 = 0 then "R" else "P", some (if n % 2 = 0 then "P" else "R"), n⟩] := by
  induction n with
  | zero => rfl
  | succ n ih =>
    have hstep : replyChainWorking cycleDb "R" (n + 1)
        = replyChainStep cycleDb (replyChainWorking cycleDb "R" n) := rfl
    rcases Nat.mod_two_eq_zero_or_one n with h | h
    · have h1 : (n + 1) % 2 = 1 := by omega
      rw [hstep, ih, h, h1]
      simp [replyChainStep, cycleDb, List.filter]
    · have h1 : (n + 1) % 2 = 0 := by omega
      rw [hstep, ih, h, h1]
      simp [replyChainStep, cycleDb, List.filter]

/-- C5: on the 2-cycle store (R's parent is P, P's parent is R) the working
table of the ReplyChain CTE of getThreadHistoryForReply is non-empty at every
round, so the UNION ALL recursion never reaches the empty table that would
end it: the traversal does not terminate, and in particular never truncates
the chain at a repeated message id. -/
theorem C5_cycle_nontermination (n : Nat) :
    replyChainWorking cycleDb "R" n ≠ [] := by
  rw [replyChainWorking_cycle]
  simp

/-- C6: on the well-formed acyclic chain A <- B <- C (A a root with text, all
in group g), resolving the thread of the leaf C via getThreadHistoryForReply
returns the empty history — the base-finding CTE never contains the root A,
because its recursive member requires the joined message's own stanzaId to be
non-null, so no ReplyChain row has a null parent_id. The same store queried
at the base A shows the full thread of 3 messages at depths 0, 1, 2 does
exist, and a direct getThreadHistory at the leaf C returns only C's single
row rather than the N messages of the chain. -/
theorem C6_leaf_resolution_empty :
    getThreadHistoryForReply chainDb "C" "g" = []
    ∧ getThreadHistory chainDb "A" "g"
      = [⟨"A", 0, "A", "S1", some "job WO-1 at Main St", "S1 : job WO-1 at Main St"⟩,
         ⟨"A", 1, "B", "S2", some "price 500", "S1 : job WO-1 at Main St | S2 : price 500"⟩,
         ⟨"A", 2, "C", "S3", some "job done",
          "S1 : job WO-1 at Main St | S2 : price 500 | S3 : job done"⟩]
    ∧ getThreadHistory chainDb "C" "g"
      = [⟨"A", 2, "C", "S3", some "job done",
          "S1 : job WO-1 at Main St | S2 : price 500 | S3 : job done"⟩] := by decide

/-- C8 counterexample: when the analysis's newValues themselves carry an
updated_by key ('Mallory'), Object.assign runs after the synthetic pair is
seeded and overrides it, so the change set's updated-by value is not the
current actor 'Jane'. -/
theorem C8_counterexample :
    (convertReplyAnalysisToUpdates (some [("updated_by", "Mallory")]) "Jane"
      "2024-05-01T10:00:00Z").lookup "updated_by" = some "Mallory"
    ∧ "Mallory" ≠ "Jane" := by decide

/-- C8 (amended): convertReplyAnalysisToUpdates seeds the change set with
updated_at = current time and updated_by = current actor before merging the
proposed values, so the synthetic pair is present with those values whenever
the proposal does not itself contain updated_at or updated_by keys, and every
other key of the change set carries exactly the proposed value; proposals
merged on top can override the pair. -/
theorem C8_last_modified_pair (nv : List (String × String)) (senderName timestamp : String)
    (hat : nv.lookup "updated_at" = none) (hby : nv.lookup "updated_by" = none) :
    (convertReplyAnalysisToUpdates (some nv) senderName timestamp).lookup "updated_at"
      = some timestamp
    ∧ (convertReplyAnalysisToUpdates (some nv) senderName timestamp).lookup "updated_by"
      = some senderName
    ∧ ∀ k : String, k ≠ "updated_at" → k ≠ "updated_by" →
        (convertReplyAnalysisToUpdates (some nv) senderName timestamp).lookup k
          = nv.lookup k := by
  refine ⟨?_, ?_, ?_⟩
  · simp only [convertReplyAnalysisToUpdates, recAssign]
    rw [lookup_append_of_none _ _ _ hat]
    simp [List.lookup]
  · simp only [convertReplyAnalysisToUpdates, recAssign]
    rw [lookup_append_of_none _ _ _ hby]
    simp only [List.lookup, show ("updated_by" == "updated_at") = false from by decide,
      show ("updated_by" == "updated_by") = true from by decide]
  · intro k hk1 hk2
    simp only [convertReplyAnalysisToUpdates, recAssign]
    cases hnv : nv.lookup k with
    | some v => rw [lookup_append_of_some _ _ _ _ hnv]
    | none =>
      rw [lookup_append_of_none _ _ _ hnv]
      simp only [List.lookup, beq_eq_false_iff_ne.mpr hk1, beq_eq_false_iff_ne.mpr hk2]

/-- C8 witness: a proposal changing only job_status keeps the synthetic pair
stamped with the current actor and time and carries the proposed value. -/
theorem C8_witness :
    (convertReplyAnalysisToUpdates (some [("job_status", "done")]) "Jane"
      "2024-05-01T10:00:00Z").lookup "updated_at" = some "2024-05-01T10:00:00Z" :=
  (C8_last_modified_pair [("job_status", "done")] "Jane" "2024-05-01T10:00:00Z"
    (by decide) (by decide)).1

/-- C9 counterexample: a quoted payload whose conversation text is the
non-empty string ' ' (one space) yields the empty history, because the text
trims to empty — the claim's promise of a length-1 history for every
non-empty quoted text fails. -/
theorem C9_counterexample :
    getThreadHistoryFromQuoted "m1" (some ⟨some " ", none, none⟩) = []
    ∧ (" " : String) ≠ "" := by decide

/-- C9 (amended): with the message store unavailable, a quoted payload whose
extracted text (conversation, extended text, or image caption, in that
order) is non-empty after trimming yields a ThreadHistory of exactly one
entry at depth 0, with sender placeholder 'Previous Message' and the trimmed
text as message text and full history; an absent payload, or one whose
extracted text trims to empty, yields the empty ThreadHistory. -/
theorem C9_quoted_fallback (replyId : String) (q : QuotedMessage)
    (h : trimStr (extractQuotedText q) ≠ "") :
    getThreadHistoryFromQuoted replyId (some q)
      = [⟨replyId, 0, replyId, "Previous Message", some (trimStr (extractQuotedText q)),
          trimStr (extractQuotedText q)⟩]
    ∧ getThreadHistoryFromQuoted replyId none = []
    ∧ ∀ q' : QuotedMessage, trimStr (extractQuotedText q') = "" →
        getThreadHistoryFromQuoted replyId (some q') = [] := by
  refine ⟨?_, rfl, ?_⟩
  · have hne : extractQuotedText q ≠ "" := by
      intro h0
      apply h
      rw [h0]
      rfl
    have hlen : ((trimStr (extractQuotedText q)).length == 0) = false := by
      rw [beq_eq_false_iff_ne]
      intro h0
      exact h ((string_length_eq_zero_iff _).mp h0)
    simp only [getThreadHistoryFromQuoted, beq_eq_false_iff_ne.mpr hne, hlen,
      Bool.or_self, Bool.false_eq_true, if_false]
  · intro q' h'
    have hlen : ((trimStr (extractQuotedText q')).length == 0) = true := by
      rw [h']
      rfl
    simp only [getThreadHistoryFromQuoted, hlen, Bool.or_true, if_true]

/-- C9 witness: quoted conversation ' hello ' yields the single depth-0 entry
with the trimmed text 'hello' and the placeholder sender. -/
theorem C9_witness :
    getThreadHistoryFromQuoted "m1" (some ⟨some " hello ", none, none⟩)
      = [⟨"m1", 0, "m1", "Previous Message", some "hello", "hello"⟩] :=
  ((C9_quoted_fallback "m1" ⟨some " hello ", none, none⟩ (by decide)).1).trans (by decide)

/-- C10: processWhatsAppMessage returns a ProcessingResult for every payload
and collaborator behaviour (it is a total function into ProcessingResult),
and whenever the try-block body throws — malformed payload field access,
validation, logging, or a delegated processor — the returned result is
success = false, messageType 'ignored', carrying the error message. -/
theorem C10_total_interface (env : ProcEnv) (p : Option RawPayload) :
    (∀ e, processBody env p = .error e →
        processWhatsAppMessage env p = ⟨false, .ignored, none, some e⟩)
    ∧ ∃ r : ProcessingResult, processWhatsAppMessage env p = r := by
  refine ⟨fun e he => ?_, ⟨_, rfl⟩⟩
  unfold processWhatsAppMessage
  rw [he]

/-- C10 witness: the malformed payload `null` makes the body throw a
TypeError on its first field access, and the processor surfaces it as a
failed ignored result with that message. -/
theorem C10_witness :
    processWhatsAppMessage sampleEnv none
      = ⟨false, .ignored, none, some "TypeError: Cannot read properties of undefined"⟩ :=
  (C10_total_interface sampleEnv none).1 "TypeError: Cannot read properties of undefined" rfl
